import Mathlib

set_option maxRecDepth 8192

/-!
Shallow embedding of the physics-simulation repository
(`physics-simulations.ts`, `NewtonsThirdLawSimulation.tsx`,
`GravitySimulation.tsx`).  JavaScript numbers are modelled as real
numbers; the per-frame animation callbacks become explicit state
transition functions iterated with `Function.iterate`.
-/

namespace PhysicsSim

noncomputable section

/-! ### physics-simulations.ts -/

/-- `Vector2D` from physics-simulations.ts. -/
structure Vector2D where
  x : ℝ
  y : ℝ

namespace HammerNail

/-- `HammerNail.calculateImpulse`: `Math.abs(mass * velocity)`. -/
def calculateImpulse (mass velocity : ℝ) : ℝ := |mass * velocity|

/-- `HammerNail.calculatePenetrationDepth`: `Math.min(impulse * 0.8, 60)`. -/
def calculatePenetrationDepth (impulse : ℝ) : ℝ := min (impulse * 0.8) 60

/-- `HammerNail.calculateForceMagnitude`:
`Math.max(Math.min(impulse * 1.5, 150), 50)`. -/
def calculateForceMagnitude (impulse : ℝ) : ℝ := max (min (impulse * 1.5) 150) 50

end HammerNail

namespace Gravity

/-- `Gravity.calculateForceMagnitude`:
`distance <= 0 ? 0 : G * mass1 * mass2 / (distance * distance)`. -/
def calculateForceMagnitude (G mass1 mass2 distance : ℝ) : ℝ :=
  if distance ≤ 0 then 0 else G * mass1 * mass2 / (distance * distance)

/-- `Gravity.forceToArrowLength`:
`Math.min(Math.max(Math.sqrt(force) * scale, min), max)`; in the source
the parameters `scale`, `lo`, `hi` default to 120, 20 and 180. -/
def forceToArrowLength (force scale lo hi : ℝ) : ℝ :=
  min (max (Real.sqrt force * scale) lo) hi

end Gravity

/-! ### NewtonsThirdLawSimulation.tsx -/

namespace NewtonsThirdLaw

/-- `SimulationState` from NewtonsThirdLawSimulation.tsx. -/
inductive SimulationState where
  | idle
  | swinging
  | contact
  | pause
  | resetting
deriving DecidableEq

/-- `AnimationState` (the `physicsRef` record) from
NewtonsThirdLawSimulation.tsx. -/
@[ext] structure AnimationState where
  state : SimulationState
  hammerAngle : ℝ
  nailDepth : ℝ
  maxDepth : ℝ
  forceMagnitude : ℝ

/-- The `massOption` UI selection (`'light' | 'medium' | 'heavy'`). -/
inductive MassOption where
  | light
  | medium
  | heavy
deriving DecidableEq

/-- The `speedOption` UI selection (`'slow' | 'medium' | 'fast'`). -/
inductive SpeedOption where
  | slow
  | medium
  | fast
deriving DecidableEq

/-- `MASS_MAP = { light: 1, medium: 5, heavy: 10 }`. -/
def MASS_MAP : MassOption → ℝ
  | .light => 1
  | .medium => 5
  | .heavy => 10

/-- `SWING_SPEED_RADS = { slow: 0.05, medium: 0.1, fast: 0.15 }`. -/
def SWING_SPEED_RADS : SpeedOption → ℝ
  | .slow => 0.05
  | .medium => 0.1
  | .fast => 0.15

/-- `GROUND_Y = 450`. -/
def GROUND_Y : ℝ := 450

/-- `NAIL_X = 400`. -/
def NAIL_X : ℝ := 400

/-- `HAMMER_IMPACT_ANGLE = Math.PI / 20`. -/
def HAMMER_IMPACT_ANGLE : ℝ := Real.pi / 20

/-- `INITIAL_HAMMER_ANGLE = Math.PI / 5`. -/
def INITIAL_HAMMER_ANGLE : ℝ := Real.pi / 5

/-- The initial value of `physicsRef` in NewtonsThirdLawSimulation.tsx. -/
def initialHammerState : AnimationState :=
  { state := .idle
    hammerAngle := INITIAL_HAMMER_ANGLE
    nailDepth := 0
    maxDepth := 0
    forceMagnitude := 0 }

/-- The state-machine part of `update` in NewtonsThirdLawSimulation.tsx
(the per-frame mutation of `physicsRef.current`, before `drawScene`). -/
def update (massOption : MassOption) (speedOption : SpeedOption)
    (phys : AnimationState) : AnimationState :=
  match phys.state with
  | .idle =>
      { phys with hammerAngle := INITIAL_HAMMER_ANGLE }
  | .swinging =>
      let speed := SWING_SPEED_RADS speedOption
      let angle := phys.hammerAngle - speed
      if angle ≤ HAMMER_IMPACT_ANGLE then
        let mass := MASS_MAP massOption
        let impulse := HammerNail.calculateImpulse mass speed
        let depth := HammerNail.calculatePenetrationDepth impulse
        { phys with
            state := .contact
            hammerAngle := angle
            maxDepth := phys.maxDepth + depth
            forceMagnitude := HammerNail.calculateForceMagnitude impulse }
      else
        { phys with hammerAngle := angle }
  | .contact =>
      if phys.nailDepth < phys.maxDepth then
        { phys with nailDepth := phys.nailDepth + 5 }
      else
        { phys with nailDepth := phys.maxDepth, state := .pause }
  | .pause => phys
  | .resetting =>
      let angle := phys.hammerAngle + 0.1
      let depth := if phys.nailDepth > 0 then phys.nailDepth - 2 else phys.nailDepth
      if angle ≥ INITIAL_HAMMER_ANGLE then
        { phys with
            state := .idle
            nailDepth := 0
            hammerAngle := INITIAL_HAMMER_ANGLE }
      else
        { phys with hammerAngle := angle, nailDepth := depth }

/-- `handleHit`: sets `physicsRef.current.state = 'swinging'`. -/
def handleHit (phys : AnimationState) : AnimationState :=
  { phys with state := .swinging }

/-- `handleReset`: re-initialises every field of `physicsRef.current`. -/
def handleReset (_phys : AnimationState) : AnimationState :=
  { state := .idle
    hammerAngle := INITIAL_HAMMER_ANGLE
    nailDepth := 0
    maxDepth := 0
    forceMagnitude := 0 }

/-- An arrow drawn by `drawArrow`: origin, direction, shaft length.
Colour and label strings are omitted; the length argument is the third
numeric argument of `drawArrow`. -/
structure Arrow where
  x : ℝ
  y : ℝ
  dir : Vector2D
  length : ℝ

/-- The force arrows emitted by `drawScene` in
NewtonsThirdLawSimulation.tsx: two arrows (`F_N` up, `F_H` down) when the
state is `'pause'`, none otherwise.  Both `drawArrow` calls pass
`forceMagnitude` as the length. -/
def sceneArrows (phys : AnimationState) : List Arrow :=
  let NAIL_INITIAL_OFFSET : ℝ := 50
  let currentNailY := GROUND_Y - NAIL_INITIAL_OFFSET + phys.nailDepth
  if phys.state = .pause then
    [ { x := NAIL_X, y := currentNailY + 5, dir := ⟨0, -1⟩, length := phys.forceMagnitude },
      { x := NAIL_X, y := currentNailY + 5, dir := ⟨0, 1⟩, length := phys.forceMagnitude } ]
  else []

/-- Commands that can change `physicsRef.current`: a per-frame `update`
tick (with whatever mass/speed options are currently selected),
`handleHit`, or `handleReset`. -/
inductive HammerReachable : AnimationState → Prop
  | init : HammerReachable initialHammerState
  | step (massOption : MassOption) (speedOption : SpeedOption) (s : AnimationState) :
      HammerReachable s → HammerReachable (update massOption speedOption s)
  | hit (s : AnimationState) : HammerReachable s → HammerReachable (handleHit s)
  | reset (s : AnimationState) : HammerReachable s → HammerReachable (handleReset s)

/-- Number of `update` frames from issuing Hit (at the initial raised
angle) until the swing reaches the impact angle, for each speed. -/
def framesToImpact : SpeedOption → ℕ
  | .slow => 10
  | .medium => 5
  | .fast => 4

/-- Penetration depth contributed by one hit as computed at impact:
`calculatePenetrationDepth (calculateImpulse mass speed)`. -/
def hitDepth (massOption : MassOption) (speedOption : SpeedOption) : ℝ :=
  HammerNail.calculatePenetrationDepth
    (HammerNail.calculateImpulse (MASS_MAP massOption) (SWING_SPEED_RADS speedOption))

/-- Force-arrow length computed at impact:
`calculateForceMagnitude (calculateImpulse mass speed)`. -/
def hitForce (massOption : MassOption) (speedOption : SpeedOption) : ℝ :=
  HammerNail.calculateForceMagnitude
    (HammerNail.calculateImpulse (MASS_MAP massOption) (SWING_SPEED_RADS speedOption))

end NewtonsThirdLaw

/-! ### GravitySimulation.tsx -/

namespace GravitySim

/-- `GravitySimState` from GravitySimulation.tsx. -/
inductive GravitySimState where
  | idle
  | running
  | paused
deriving DecidableEq

/-- One entry of `pathPoints` (`{ x, y }`). -/
@[ext] structure Point where
  x : ℝ
  y : ℝ

/-- `AnimationState` (the `physicsRef` record) from GravitySimulation.tsx. -/
@[ext] structure AnimationState where
  state : GravitySimState
  moonX : ℝ
  moonY : ℝ
  moonAngle : ℝ
  moonDistance : ℝ
  moonVelocity : ℝ
  forceMagnitude : ℝ
  pathPoints : List Point

/-- The `earthMass` / `moonMass` UI selections
(`'0.5' | 'earth' | '1.5' | '2'`). -/
inductive MassKey where
  | half
  | earth
  | oneAndHalf
  | double
deriving DecidableEq

/-- `MASS_MAP = { '0.5': 0.5, 'earth': 1, '1.5': 1.5, '2': 2 }`. -/
def MASS_MAP : MassKey → ℝ
  | .half => 0.5
  | .earth => 1
  | .oneAndHalf => 1.5
  | .double => 2

/-- `EARTH_X = 400`. -/
def EARTH_X : ℝ := 400

/-- `EARTH_Y = 300`. -/
def EARTH_Y : ℝ := 300

/-- `MIN_DISTANCE = 150`. -/
def MIN_DISTANCE : ℝ := 150

/-- `MAX_DISTANCE = 400`. -/
def MAX_DISTANCE : ℝ := 400

/-- `INITIAL_DISTANCE = 280`. -/
def INITIAL_DISTANCE : ℝ := 280

/-- `GRAVITATIONAL_CONSTANT = 15000`. -/
def GRAVITATIONAL_CONSTANT : ℝ := 15000

/-- `calculateGravitationalForce` from GravitySimulation.tsx
(`G` is the inlined `GRAVITATIONAL_CONSTANT`). -/
def calculateGravitationalForce (earthMassVal moonMassVal distance : ℝ) : ℝ :=
  if distance ≤ 0 then 0
  else GRAVITATIONAL_CONSTANT * earthMassVal * moonMassVal / (distance * distance)

/-- `calculateOrbitalVelocity` from GravitySimulation.tsx:
`distance <= 0 ? 0 : Math.sqrt(G * M / distance)`. -/
def calculateOrbitalVelocity (earthMassVal distance : ℝ) : ℝ :=
  if distance ≤ 0 then 0
  else Real.sqrt (GRAVITATIONAL_CONSTANT * earthMassVal / distance)

/-- The initial value of `physicsRef` in GravitySimulation.tsx. -/
def initialGravityState : AnimationState :=
  { state := .idle
    moonX := EARTH_X + INITIAL_DISTANCE
    moonY := EARTH_Y
    moonAngle := 0
    moonDistance := INITIAL_DISTANCE
    moonVelocity := 0
    forceMagnitude := 0
    pathPoints := [] }

/-- The physics part of `update` in GravitySimulation.tsx: when the state
is `'running'`, recompute force, velocity, angle and position, and record
the new position in `pathPoints` (`shift()` evicts the front entry once
the length exceeds 500, `push` appends at the back); otherwise nothing is
mutated. -/
def update (earthMass moonMass : MassKey) (phys : AnimationState) : AnimationState :=
  if phys.state = .running then
    let earthMassVal := MASS_MAP earthMass
    let moonMassVal := MASS_MAP moonMass
    let forceMagnitude := calculateGravitationalForce earthMassVal moonMassVal phys.moonDistance
    let orbitalSpeed := calculateOrbitalVelocity earthMassVal phys.moonDistance
    let moonVelocity := orbitalSpeed * 0.1
    let moonAngle := phys.moonAngle + moonVelocity / phys.moonDistance
    let moonX := EARTH_X + phys.moonDistance * Real.cos moonAngle
    let moonY := EARTH_Y + phys.moonDistance * Real.sin moonAngle
    let pathPoints :=
      if phys.pathPoints.length > 500 then phys.pathPoints.tail else phys.pathPoints
    { phys with
        forceMagnitude := forceMagnitude
        moonVelocity := moonVelocity
        moonAngle := moonAngle
        moonX := moonX
        moonY := moonY
        pathPoints := pathPoints ++ [{ x := moonX, y := moonY }] }
  else phys

/-- `handlePlay`: sets `physicsRef.current.state = 'running'`. -/
def handlePlay (phys : AnimationState) : AnimationState :=
  { phys with state := .running }

/-- `handlePause`: sets `physicsRef.current.state = 'paused'`. -/
def handlePause (phys : AnimationState) : AnimationState :=
  { phys with state := .paused }

/-- `handleReset`: re-initialises every field of `physicsRef.current`. -/
def handleReset (_phys : AnimationState) : AnimationState :=
  initialGravityState

/-- `handleCanvasMouseMove`, given the pointer position already mapped
into logical canvas coordinates (`x`, `y`): when a drag is in progress,
the distance from the Earth centre is recomputed, clamped with
`Math.max(MIN_DISTANCE, Math.min(MAX_DISTANCE, distance))`, and the angle
is recomputed with `Math.atan2(dy, dx)` (modelled with `Complex.arg`). -/
def handleCanvasMouseMove (isDragging : Bool) (x y : ℝ)
    (phys : AnimationState) : AnimationState :=
  if isDragging then
    let dx := x - EARTH_X
    let dy := y - EARTH_Y
    let rawDistance := Real.sqrt (dx * dx + dy * dy)
    let distance := max MIN_DISTANCE (min MAX_DISTANCE rawDistance)
    let moonAngle := Complex.arg ⟨dx, dy⟩
    { phys with
        moonDistance := distance
        moonAngle := moonAngle
        moonX := EARTH_X + distance * Real.cos moonAngle
        moonY := EARTH_Y + distance * Real.sin moonAngle }
  else phys

/-- An arrow drawn by `drawArrow` in GravitySimulation.tsx: origin,
direction, shaft length (colour and label strings omitted). -/
structure Arrow where
  x : ℝ
  y : ℝ
  dir : Vector2D
  length : ℝ

/-- The force arrows emitted by `drawScene` in GravitySimulation.tsx: two
arrows (`F_E` at the moon pointing toward the Earth, `F_M` at the Earth
pointing toward the moon) when `showForceArrows` is set, none otherwise.
Both `drawArrow` calls pass `phys.forceMagnitude` as the length. -/
def sceneArrows (showForceArrows : Bool) (phys : AnimationState) : List Arrow :=
  if showForceArrows then
    let dirToEarth : Vector2D := ⟨EARTH_X - phys.moonX, EARTH_Y - phys.moonY⟩
    let dirMag := Real.sqrt (dirToEarth.x ^ 2 + dirToEarth.y ^ 2)
    let dirNorm : Vector2D := ⟨dirToEarth.x / dirMag, dirToEarth.y / dirMag⟩
    let dirToMoon : Vector2D := ⟨phys.moonX - EARTH_X, phys.moonY - EARTH_Y⟩
    let dirMag2 := Real.sqrt (dirToMoon.x ^ 2 + dirToMoon.y ^ 2)
    let dirNorm2 : Vector2D := ⟨dirToMoon.x / dirMag2, dirToMoon.y / dirMag2⟩
    [ { x := phys.moonX, y := phys.moonY, dir := dirNorm, length := phys.forceMagnitude },
      { x := EARTH_X, y := EARTH_Y, dir := dirNorm2, length := phys.forceMagnitude } ]
  else []

/-- The per-frame angle increment while running from the initial
distance: `(calculateOrbitalVelocity M 280 * 0.1) / 280`. -/
def delta (earthMass : MassKey) : ℝ :=
  calculateOrbitalVelocity (MASS_MAP earthMass) INITIAL_DISTANCE * 0.1 / INITIAL_DISTANCE

/-- Moon position after `n` running frames from the initial state. -/
def posAt (earthMass : MassKey) (n : ℕ) : Point :=
  { x := EARTH_X + INITIAL_DISTANCE * Real.cos (n * delta earthMass)
    y := EARTH_Y + INITIAL_DISTANCE * Real.sin (n * delta earthMass) }

end GravitySim

end

/-! ### Theorems -/

/-- C7: for every mass `m > 0` and velocity `v > 0`, `calculateImpulse`
returns exactly `m * v`, and the result is strictly increasing in each of
the two arguments. -/
theorem impulse_formula (m v : ℝ) (hm : 0 < m) (hv : 0 < v) :
    HammerNail.calculateImpulse m v = m * v ∧
    (∀ m2 : ℝ, m < m2 →
      HammerNail.calculateImpulse m v < HammerNail.calculateImpulse m2 v) ∧
    (∀ v2 : ℝ, v < v2 →
      HammerNail.calculateImpulse m v < HammerNail.calculateImpulse m v2) := by
  have habs : ∀ a b : ℝ, 0 < a → 0 < b → HammerNail.calculateImpulse a b = a * b := by
    intro a b ha hb
    unfold HammerNail.calculateImpulse
    exact abs_of_pos (mul_pos ha hb)
  refine ⟨habs m v hm hv, ?_, ?_⟩
  · intro m2 hm2
    rw [habs m v hm hv, habs m2 v (hm.trans hm2) hv]
    exact mul_lt_mul_of_pos_right hm2 hv
  · intro v2 hv2
    rw [habs m v hm hv, habs m v2 hm (hv.trans hv2)]
    exact mul_lt_mul_of_pos_left hv2 hm

/-- Witness for C7 at `m = 2`, `v = 3`. -/
theorem impulse_formula_witness :
    (0 : ℝ) < 2 ∧ (0 : ℝ) < 3 ∧ HammerNail.calculateImpulse 2 3 = 2 * 3 :=
  ⟨by norm_num, by norm_num, (impulse_formula 2 3 (by norm_num) (by norm_num)).1⟩

/-- C8: for every impulse `≥ 0`, `calculatePenetrationDepth` and
`calculateForceMagnitude` are monotonically non-decreasing in the impulse
and bounded by their caps (60 and 150 respectively). -/
theorem visual_formula_saturation :
    (∀ i j : ℝ, 0 ≤ i → i ≤ j →
      HammerNail.calculatePenetrationDepth i ≤ HammerNail.calculatePenetrationDepth j ∧
      HammerNail.calculateForceMagnitude i ≤ HammerNail.calculateForceMagnitude j) ∧
    (∀ i : ℝ, 0 ≤ i →
      HammerNail.calculatePenetrationDepth i ≤ 60 ∧
      HammerNail.calculateForceMagnitude i ≤ 150) := by
  constructor
  · intro i j _ hij
    constructor
    · exact min_le_min (by linarith) le_rfl
    · exact max_le_max (min_le_min (by linarith) le_rfl) le_rfl
  · intro i _
    constructor
    · exact min_le_right _ _
    · exact max_le (min_le_right _ _) (by norm_num)

/-- Witness for C8 at `i = 0`, `j = 1`. -/
theorem visual_formula_saturation_witness :
    (0 : ℝ) ≤ 0 ∧ (0 : ℝ) ≤ 1 ∧
    HammerNail.calculatePenetrationDepth 0 ≤ HammerNail.calculatePenetrationDepth 1 ∧
    HammerNail.calculatePenetrationDepth 0 ≤ 60 :=
  ⟨le_refl 0, by norm_num,
    (visual_formula_saturation.1 0 1 le_rfl (by norm_num)).1,
    (visual_formula_saturation.2 0 le_rfl).1⟩

/-- C5: for `G, m1, m2 > 0` the gravitational-force function returns 0
for non-positive distance, returns `G * m1 * m2 / r²` (strictly positive)
for `r > 0`, and is strictly decreasing in `r`; the component-local
`calculateGravitationalForce` is the library formula at
`G = GRAVITATIONAL_CONSTANT`. -/
theorem gravitational_force_formula (G m1 m2 : ℝ)
    (hG : 0 < G) (h1 : 0 < m1) (h2 : 0 < m2) :
    (∀ r : ℝ, r ≤ 0 → Gravity.calculateForceMagnitude G m1 m2 r = 0) ∧
    (∀ r : ℝ, 0 < r →
      Gravity.calculateForceMagnitude G m1 m2 r = G * m1 * m2 / (r * r) ∧
      0 < Gravity.calculateForceMagnitude G m1 m2 r) ∧
    (∀ r s : ℝ, 0 < r → r < s →
      Gravity.calculateForceMagnitude G m1 m2 s <
        Gravity.calculateForceMagnitude G m1 m2 r) ∧
    (∀ e m r : ℝ, GravitySim.calculateGravitationalForce e m r =
      Gravity.calculateForceMagnitude GravitySim.GRAVITATIONAL_CONSTANT e m r) := by
  have hval : ∀ r : ℝ, 0 < r →
      Gravity.calculateForceMagnitude G m1 m2 r = G * m1 * m2 / (r * r) := by
    intro r hr
    unfold Gravity.calculateForceMagnitude
    rw [if_neg (not_le.mpr hr)]
  refine ⟨?_, ?_, ?_, ?_⟩
  · intro r hr
    unfold Gravity.calculateForceMagnitude
    rw [if_pos hr]
  · intro r hr
    refine ⟨hval r hr, ?_⟩
    rw [hval r hr]
    positivity
  · intro r s hr hrs
    have hs : 0 < s := hr.trans hrs
    rw [hval r hr, hval s hs]
    rw [div_lt_div_iff₀ (by positivity) (by positivity)]
    have hrr : r * r < s * s := by nlinarith
    nlinarith [mul_pos (mul_pos hG h1) h2]
  · intro e m r
    rfl

/-- Witness for C5 at `G = m1 = m2 = 1`, evaluated at `r = -1` (guard)
and `r = 2` (positive value). -/
theorem gravitational_force_formula_witness :
    (0 : ℝ) < 1 ∧ ((-1 : ℝ) ≤ 0 ∧ Gravity.calculateForceMagnitude 1 1 1 (-1) = 0) ∧
    ((0 : ℝ) < 2 ∧ Gravity.calculateForceMagnitude 1 1 1 2 = 1 * 1 * 1 / (2 * 2)) :=
  ⟨by norm_num,
    ⟨by norm_num,
      (gravitational_force_formula 1 1 1 (by norm_num) (by norm_num) (by norm_num)).1
        (-1) (by norm_num)⟩,
    ⟨by norm_num,
      ((gravitational_force_formula 1 1 1 (by norm_num) (by norm_num) (by norm_num)).2.1
        2 (by norm_num)).1⟩⟩

/-- C6: `calculateOrbitalVelocity` returns 0 for every non-positive
distance and `√(G·M/r)` for positive `r`; the same non-positive-distance
guard (return 0, never fail) is the behaviour of both gravitational-force
functions — the formula library's only error condition. -/
theorem orbital_velocity_guard :
    (∀ M r : ℝ, r ≤ 0 → GravitySim.calculateOrbitalVelocity M r = 0) ∧
    (∀ M r : ℝ, 0 < r → GravitySim.calculateOrbitalVelocity M r =
      Real.sqrt (GravitySim.GRAVITATIONAL_CONSTANT * M / r)) ∧
    (∀ e m r : ℝ, r ≤ 0 → GravitySim.calculateGravitationalForce e m r = 0) ∧
    (∀ G m1 m2 r : ℝ, r ≤ 0 → Gravity.calculateForceMagnitude G m1 m2 r = 0) := by
  refine ⟨?_, ?_, ?_, ?_⟩
  · intro M r hr
    unfold GravitySim.calculateOrbitalVelocity
    rw [if_pos hr]
  · intro M r hr
    unfold GravitySim.calculateOrbitalVelocity
    rw [if_neg (not_le.mpr hr)]
  · intro e m r hr
    unfold GravitySim.calculateGravitationalForce
    rw [if_pos hr]
  · intro G m1 m2 r hr
    unfold Gravity.calculateForceMagnitude
    rw [if_pos hr]

/-- Witness for C6 at `M = 1`, `r = -1` and `r = 2`. -/
theorem orbital_velocity_guard_witness :
    ((-1 : ℝ) ≤ 0 ∧ GravitySim.calculateOrbitalVelocity 1 (-1) = 0) ∧
    ((0 : ℝ) < 2 ∧ GravitySim.calculateOrbitalVelocity 1 2 =
      Real.sqrt (GravitySim.GRAVITATIONAL_CONSTANT * 1 / 2)) :=
  ⟨⟨by norm_num, orbital_velocity_guard.1 1 (-1) (by norm_num)⟩,
    ⟨by norm_num, orbital_velocity_guard.2.1 1 2 (by norm_num)⟩⟩

/-- C9: during a drag, the stored `moonDistance` is exactly
`max(MIN_DISTANCE, min(MAX_DISTANCE, d))` where `d` is the raw pointer
distance from the Earth centre. -/
theorem orbit_drag_clamp (x y : ℝ) (phys : GravitySim.AnimationState) :
    (GravitySim.handleCanvasMouseMove true x y phys).moonDistance =
      max GravitySim.MIN_DISTANCE (min GravitySim.MAX_DISTANCE
        (Real.sqrt ((x - GravitySim.EARTH_X) * (x - GravitySim.EARTH_X) +
          (y - GravitySim.EARTH_Y) * (y - GravitySim.EARTH_Y)))) := by
  simp [GravitySim.handleCanvasMouseMove]

section HammerLemmas

open NewtonsThirdLaw

/-- `update` on an `'idle'` state. -/
lemma update_mk_idle (mo : MassOption) (so : SpeedOption) (a d m f : ℝ) :
    update mo so ⟨.idle, a, d, m, f⟩ = ⟨.idle, INITIAL_HAMMER_ANGLE, d, m, f⟩ := rfl

/-- `update` on a `'swinging'` state. -/
lemma update_mk_swinging (mo : MassOption) (so : SpeedOption) (a d m f : ℝ) :
    update mo so ⟨.swinging, a, d, m, f⟩ =
      if a - SWING_SPEED_RADS so ≤ HAMMER_IMPACT_ANGLE then
        ⟨.contact, a - SWING_SPEED_RADS so, d, m + hitDepth mo so, hitForce mo so⟩
      else
        ⟨.swinging, a - SWING_SPEED_RADS so, d, m, f⟩ := rfl

/-- `update` on a `'contact'` state. -/
lemma update_mk_contact (mo : MassOption) (so : SpeedOption) (a d m f : ℝ) :
    update mo so ⟨.contact, a, d, m, f⟩ =
      if d < m then ⟨.contact, a, d + 5, m, f⟩ else ⟨.pause, a, m, m, f⟩ := rfl

/-- `update` on a `'pause'` state. -/
lemma update_mk_pause (mo : MassOption) (so : SpeedOption) (a d m f : ℝ) :
    update mo so ⟨.pause, a, d, m, f⟩ = ⟨.pause, a, d, m, f⟩ := rfl

/-- `update` on a `'resetting'` state. -/
lemma update_mk_resetting (mo : MassOption) (so : SpeedOption) (a d m f : ℝ) :
    update mo so ⟨.resetting, a, d, m, f⟩ =
      if a + 0.1 ≥ INITIAL_HAMMER_ANGLE then
        ⟨.idle, INITIAL_HAMMER_ANGLE, 0, m, f⟩
      else
        ⟨.resetting, a + 0.1, if d > 0 then d - 2 else d, m, f⟩ := rfl

/-- Pause states are fixed points of `update`. -/
lemma iterate_pause (mo : MassOption) (so : SpeedOption) (k : ℕ) (a d m f : ℝ) :
    (update mo so)^[k] ⟨.pause, a, d, m, f⟩ = ⟨.pause, a, d, m, f⟩ := by
  induction k with
  | zero => rfl
  | succ k ih => rw [Function.iterate_succ_apply, update_mk_pause, ih]

/-- While the swing has not reached the impact angle, each frame just
subtracts the swing speed from the hammer angle. -/
lemma swing_iter (mo : MassOption) (so : SpeedOption) (n : ℕ) (a d m f : ℝ)
    (h : ∀ j : ℕ, j < n →
      HAMMER_IMPACT_ANGLE < a - (j + 1) * SWING_SPEED_RADS so) :
    (update mo so)^[n] ⟨.swinging, a, d, m, f⟩ =
      ⟨.swinging, a - n * SWING_SPEED_RADS so, d, m, f⟩ := by
  induction n with
  | zero => norm_num
  | succ n ih =>
    have hn := h n (Nat.lt_succ_self n)
    have hcond : ¬ (a - n * SWING_SPEED_RADS so - SWING_SPEED_RADS so ≤
        HAMMER_IMPACT_ANGLE) := by
      push_cast at hn
      intro hle
      linarith
    rw [Function.iterate_succ_apply',
      ih (fun j hj => h j (hj.trans (Nat.lt_succ_self n))),
      update_mk_swinging, if_neg hcond]
    congr 1
    push_cast
    ring

/-- For `j < framesToImpact so` the swing is still above the impact
angle after `j` frames. -/
lemma swing_key (so : SpeedOption) :
    ∀ j : ℕ, j < framesToImpact so →
      HAMMER_IMPACT_ANGLE < INITIAL_HAMMER_ANGLE - j * SWING_SPEED_RADS so := by
  have h3 : (3.141592 : ℝ) < Real.pi := Real.pi_gt_d6
  intro j hj
  unfold HAMMER_IMPACT_ANGLE INITIAL_HAMMER_ANGLE
  cases so with
  | slow =>
    norm_num [framesToImpact] at hj
    have hj9 : (j : ℝ) ≤ 9 := by exact_mod_cast Nat.lt_succ_iff.mp hj
    norm_num [SWING_SPEED_RADS]
    linarith
  | medium =>
    norm_num [framesToImpact] at hj
    have hj4 : (j : ℝ) ≤ 4 := by exact_mod_cast Nat.lt_succ_iff.mp hj
    norm_num [SWING_SPEED_RADS]
    linarith
  | fast =>
    norm_num [framesToImpact] at hj
    have hj3 : (j : ℝ) ≤ 3 := by exact_mod_cast Nat.lt_succ_iff.mp hj
    norm_num [SWING_SPEED_RADS]
    linarith

/-- After `framesToImpact so` frames the swing has reached the impact
angle. -/
lemma swing_done (so : SpeedOption) :
    INITIAL_HAMMER_ANGLE - (framesToImpact so) * SWING_SPEED_RADS so ≤
      HAMMER_IMPACT_ANGLE := by
  have h4 : Real.pi < 3.141593 := Real.pi_lt_d6
  have h3 : (3.141592 : ℝ) < Real.pi := Real.pi_gt_d6
  unfold HAMMER_IMPACT_ANGLE INITIAL_HAMMER_ANGLE
  cases so <;> norm_num [framesToImpact, SWING_SPEED_RADS] <;> linarith

/-- The impulse at impact is `mass * speed`, so the per-hit penetration
depth is `min (mass * speed * 0.8) 60`. -/
lemma hitDepth_eq (mo : MassOption) (so : SpeedOption) :
    hitDepth mo so = min (MASS_MAP mo * SWING_SPEED_RADS so * 0.8) 60 := by
  have hpos : 0 < MASS_MAP mo * SWING_SPEED_RADS so := by
    cases mo <;> cases so <;> norm_num [MASS_MAP, SWING_SPEED_RADS]
  unfold hitDepth HammerNail.calculateImpulse HammerNail.calculatePenetrationDepth
  rw [abs_of_pos hpos]

/-- The per-hit penetration depth is strictly between 0 and the 5-pixel
per-frame drive increment, for every mass/speed selection. -/
lemma hitDepth_bounds (mo : MassOption) (so : SpeedOption) :
    0 < hitDepth mo so ∧ hitDepth mo so < 5 := by
  rw [hitDepth_eq]
  constructor
  · apply lt_min
    · cases mo <;> cases so <;> norm_num [MASS_MAP, SWING_SPEED_RADS]
    · norm_num
  · apply min_lt_iff.mpr
    left
    cases mo <;> cases so <;> norm_num [MASS_MAP, SWING_SPEED_RADS]

/-- After Hit, the first `framesToImpact so` frames are all swinging with
a linearly decreasing angle. -/
lemma hammer_swing_phase (mo : MassOption) (so : SpeedOption) (k : ℕ)
    (hk : k < framesToImpact so) :
    (update mo so)^[k] (handleHit initialHammerState) =
      ⟨.swinging, INITIAL_HAMMER_ANGLE - k * SWING_SPEED_RADS so, 0, 0, 0⟩ := by
  have h0 : handleHit initialHammerState =
      ⟨.swinging, INITIAL_HAMMER_ANGLE, 0, 0, 0⟩ := rfl
  rw [h0, swing_iter]
  intro j hj
  have hkey := swing_key so (j + 1) (by omega)
  push_cast at hkey ⊢
  linarith

/-- Frame `framesToImpact so` is the impact frame: the state becomes
`'contact'`, `maxDepth` gains the per-hit depth and `forceMagnitude` is
set. -/
lemma hammer_at_impact (mo : MassOption) (so : SpeedOption) :
    (update mo so)^[framesToImpact so] (handleHit initialHammerState) =
      ⟨.contact,
        INITIAL_HAMMER_ANGLE - (framesToImpact so) * SWING_SPEED_RADS so,
        0, hitDepth mo so, hitForce mo so⟩ := by
  have hN : framesToImpact so = (framesToImpact so - 1) + 1 := by
    cases so <;> rfl
  have hd := swing_done so
  rw [hN] at hd ⊢
  rw [Function.iterate_succ_apply',
    hammer_swing_phase mo so _ (by omega),
    update_mk_swinging, if_pos (by push_cast at hd ⊢; linarith)]
  congr 1 <;> push_cast <;> ring

/-- The two frames after impact: one 5-pixel drive frame, then the clamp
frame that sets `nailDepth := maxDepth` and moves to `'pause'`. -/
lemma hammer_contact_frames (mo : MassOption) (so : SpeedOption) :
    (update mo so)^[framesToImpact so + 1] (handleHit initialHammerState) =
      ⟨.contact,
        INITIAL_HAMMER_ANGLE - (framesToImpact so) * SWING_SPEED_RADS so,
        5, hitDepth mo so, hitForce mo so⟩ ∧
    (update mo so)^[framesToImpact so + 2] (handleHit initialHammerState) =
      ⟨.pause,
        INITIAL_HAMMER_ANGLE - (framesToImpact so) * SWING_SPEED_RADS so,
        hitDepth mo so, hitDepth mo so, hitForce mo so⟩ := by
  have hb := hitDepth_bounds mo so
  have h1 : (update mo so)^[framesToImpact so + 1] (handleHit initialHammerState) =
      ⟨.contact,
        INITIAL_HAMMER_ANGLE - (framesToImpact so) * SWING_SPEED_RADS so,
        5, hitDepth mo so, hitForce mo so⟩ := by
    rw [Function.iterate_succ_apply', hammer_at_impact, update_mk_contact,
      if_pos hb.1]
    norm_num
  refine ⟨h1, ?_⟩
  have h2 : framesToImpact so + 2 = (framesToImpact so + 1) + 1 := rfl
  rw [h2, Function.iterate_succ_apply', h1, update_mk_contact,
    if_neg (not_lt.mpr (le_of_lt hb.2))]

/-- Every state obtained by iterating `update` after a full reset stays
idle with zero nail depth and the exact initial hammer angle. -/
lemma iterate_reset (mo : MassOption) (so : SpeedOption) (k : ℕ)
    (s : AnimationState) :
    (update mo so)^[k] (handleReset s) = handleReset s := by
  induction k with
  | zero => rfl
  | succ k ih =>
    rw [Function.iterate_succ_apply', ih]
    rfl

end HammerLemmas

section HammerTheorems

open NewtonsThirdLaw

/-- C2: from Idle, issuing Hit and iterating `update` reaches Contact for
the first time exactly at frame `framesToImpact so` (a bound determined
by the swing speed), stays in Contact for one drive frame, and from frame
`framesToImpact so + 2` on is in Pause with `nailDepth = maxDepth` —
so Contact is entered exactly once.  Issuing the Up/Reset command
(`handleReset`) from any state (Pause included) returns to Idle with
`nailDepth = 0` and `hammerAngle` exactly `INITIAL_HAMMER_ANGLE`, and
every further frame keeps those values. -/
theorem hammer_state_machine_cycle (mo : MassOption) (so : SpeedOption) :
    ∃ N : ℕ, N = framesToImpact so ∧
      (∀ k : ℕ, k < N →
        ((update mo so)^[k] (handleHit initialHammerState)).state = .swinging) ∧
      ((update mo so)^[N] (handleHit initialHammerState)).state = .contact ∧
      ((update mo so)^[N + 1] (handleHit initialHammerState)).state = .contact ∧
      (∀ k : ℕ, N + 2 ≤ k →
        ((update mo so)^[k] (handleHit initialHammerState)).state = .pause ∧
        ((update mo so)^[k] (handleHit initialHammerState)).nailDepth =
          ((update mo so)^[k] (handleHit initialHammerState)).maxDepth) ∧
      (∀ (k : ℕ) (s : AnimationState),
        ((update mo so)^[k] (handleReset s)).state = .idle ∧
        ((update mo so)^[k] (handleReset s)).nailDepth = 0 ∧
        ((update mo so)^[k] (handleReset s)).hammerAngle = INITIAL_HAMMER_ANGLE) := by
  refine ⟨framesToImpact so, rfl, ?_, ?_, ?_, ?_, ?_⟩
  · intro k hk
    rw [hammer_swing_phase mo so k hk]
  · rw [hammer_at_impact mo so]
  · rw [(hammer_contact_frames mo so).1]
  · intro k hk
    obtain ⟨j, rfl⟩ : ∃ j : ℕ, k = j + (framesToImpact so + 2) :=
      ⟨k - (framesToImpact so + 2), by omega⟩
    rw [Function.iterate_add_apply, (hammer_contact_frames mo so).2, iterate_pause]
    exact ⟨rfl, rfl⟩
  · intro k s
    rw [iterate_reset]
    exact ⟨rfl, rfl, rfl⟩

/-- Witness for C2 with medium mass and medium speed (impact frame 5). -/
theorem hammer_state_machine_cycle_witness :
    ((update .medium .medium)^[0] (handleHit initialHammerState)).state = .swinging ∧
    ((update .medium .medium)^[5] (handleHit initialHammerState)).state = .contact ∧
    ((update .medium .medium)^[7] (handleHit initialHammerState)).state = .pause ∧
    ((update .medium .medium)^[3]
      (handleReset initialHammerState)).hammerAngle = INITIAL_HAMMER_ANGLE := by
  obtain ⟨N, hN, hsw, hc1, hc2, hp, hr⟩ :=
    hammer_state_machine_cycle MassOption.medium SpeedOption.medium
  have hN5 : N = 5 := hN
  subst hN5
  exact ⟨hsw 0 (by norm_num), hc1, (hp 7 (by norm_num)).1,
    (hr 3 initialHammerState).2.2⟩

/-- C10: the `'resetting'` phase is unreachable — no reachable state of
the hammer scenario (initial state closed under per-frame `update`,
`handleHit` and `handleReset`) has state `'resetting'`. -/
theorem resetting_unreachable (s : AnimationState) (hs : HammerReachable s) :
    s.state ≠ SimulationState.resetting := by
  induction hs with
  | init => simp [initialHammerState]
  | step mo so t ht ih =>
    obtain ⟨st, a, d, m, f⟩ := t
    cases st with
    | idle => rw [update_mk_idle]; simp
    | swinging => rw [update_mk_swinging]; split <;> simp
    | contact => rw [update_mk_contact]; split <;> simp
    | pause => rw [update_mk_pause]; simp
    | resetting => simp at ih
  | hit t ht ih => simp [handleHit]
  | reset t ht ih => simp [handleReset]

/-- Witness for C10 at the initial state. -/
theorem resetting_unreachable_witness :
    initialHammerState.state ≠ SimulationState.resetting :=
  resetting_unreachable initialHammerState HammerReachable.init

/-- C4 counterexample: with medium mass and medium speed, at the frame
after impact `nailDepth` (5) strictly exceeds `maxDepth` (0.4), and on
the following clamp frame `nailDepth` strictly decreases — refuting both
the "never exceeds `maxDepth`" and the "monotonically non-decreasing"
parts of the claim within a single swing. -/
theorem nail_depth_counterexample :
    ((update .medium .medium)^[6] (handleHit initialHammerState)).maxDepth <
      ((update .medium .medium)^[6] (handleHit initialHammerState)).nailDepth ∧
    ((update .medium .medium)^[7] (handleHit initialHammerState)).nailDepth <
      ((update .medium .medium)^[6] (handleHit initialHammerState)).nailDepth := by
  have h := hammer_contact_frames MassOption.medium SpeedOption.medium
  have h6 : (update MassOption.medium SpeedOption.medium)^[6]
      (handleHit initialHammerState) =
      ⟨.contact,
        INITIAL_HAMMER_ANGLE -
          (framesToImpact SpeedOption.medium) * SWING_SPEED_RADS SpeedOption.medium,
        5, hitDepth MassOption.medium SpeedOption.medium,
        hitForce MassOption.medium SpeedOption.medium⟩ := h.1
  have h7 : (update MassOption.medium SpeedOption.medium)^[7]
      (handleHit initialHammerState) =
      ⟨.pause,
        INITIAL_HAMMER_ANGLE -
          (framesToImpact SpeedOption.medium) * SWING_SPEED_RADS SpeedOption.medium,
        hitDepth MassOption.medium SpeedOption.medium,
        hitDepth MassOption.medium SpeedOption.medium,
        hitForce MassOption.medium SpeedOption.medium⟩ := h.2
  rw [h6, h7]
  exact ⟨(hitDepth_bounds _ _).2, (hitDepth_bounds _ _).2⟩

/-- C4 amended: in Contact, each frame either drives the nail 5 pixels
deeper (while `nailDepth < maxDepth`, possibly overshooting `maxDepth` by
up to 5 pixels) or clamps `nailDepth` down to exactly `maxDepth` and
moves to Pause; and the invariant `0 ≤ maxDepth ∧ nailDepth ≤ maxDepth + 5`
is preserved by every frame. -/
theorem nail_depth_overshoot_clamp (mo : MassOption) (so : SpeedOption)
    (s : AnimationState) :
    (s.state = .contact → s.nailDepth < s.maxDepth →
      (update mo so s).nailDepth = s.nailDepth + 5 ∧
      (update mo so s).state = .contact) ∧
    (s.state = .contact → s.maxDepth ≤ s.nailDepth →
      (update mo so s).nailDepth = s.maxDepth ∧
      (update mo so s).state = .pause) ∧
    (0 ≤ s.maxDepth → s.nailDepth ≤ s.maxDepth + 5 →
      0 ≤ (update mo so s).maxDepth ∧
      (update mo so s).nailDepth ≤ (update mo so s).maxDepth + 5) := by
  obtain ⟨st, a, d, m, f⟩ := s
  refine ⟨?_, ?_, ?_⟩
  · intro hst hdm
    cases st <;> simp_all
    rw [update_mk_contact, if_pos hdm]
    exact ⟨rfl, rfl⟩
  · intro hst hdm
    cases st <;> simp_all
    rw [update_mk_contact, if_neg (not_lt.mpr hdm)]
    exact ⟨rfl, rfl⟩
  · intro hm hdm
    have hb := hitDepth_bounds mo so
    cases st with
    | idle => rw [update_mk_idle]; exact ⟨hm, hdm⟩
    | swinging =>
      rw [update_mk_swinging]
      split
      · constructor
        · show (0:ℝ) ≤ m + hitDepth mo so
          linarith [hb.1]
        · show d ≤ m + hitDepth mo so + 5
          linarith [hb.1]
      · exact ⟨hm, hdm⟩
    | contact =>
      rw [update_mk_contact]
      split
      · rename_i hlt
        constructor
        · exact hm
        · show d + 5 ≤ m + 5
          linarith
      · constructor
        · exact hm
        · show m ≤ m + 5
          linarith
    | pause => rw [update_mk_pause]; exact ⟨hm, hdm⟩
    | resetting =>
      rw [update_mk_resetting]
      split
      · constructor
        · exact hm
        · show (0:ℝ) ≤ m + 5
          linarith
      · constructor
        · exact hm
        · show (if d > 0 then d - 2 else d) ≤ m + 5
          split <;> linarith

/-- Witness for C4's amended claim at a concrete Contact state with
`nailDepth = 0 < maxDepth = 0.4`: the next frame drives the nail to 5. -/
theorem nail_depth_overshoot_clamp_witness :
    ((⟨.contact, 0, 0, 0.4, 0⟩ : AnimationState).state = .contact) ∧
    ((⟨.contact, 0, 0, 0.4, 0⟩ : AnimationState).nailDepth <
      (⟨.contact, 0, 0, 0.4, 0⟩ : AnimationState).maxDepth) ∧
    (update .medium .medium ⟨.contact, 0, 0, 0.4, 0⟩).nailDepth = 0 + 5 :=
  ⟨rfl, by norm_num,
    ((nail_depth_overshoot_clamp MassOption.medium SpeedOption.medium
      ⟨.contact, 0, 0, 0.4, 0⟩).1 rfl (by norm_num)).1⟩

end HammerTheorems

/-- C1: in both scenarios, any two arrows emitted by `drawScene` at the
same frame have the same length (both read the scenario's single
`forceMagnitude` field). -/
theorem force_arrow_symmetry :
    (∀ (phys : NewtonsThirdLaw.AnimationState) (a b : NewtonsThirdLaw.Arrow),
      a ∈ NewtonsThirdLaw.sceneArrows phys → b ∈ NewtonsThirdLaw.sceneArrows phys →
      a.length = b.length) ∧
    (∀ (showForceArrows : Bool) (phys : GravitySim.AnimationState)
      (a b : GravitySim.Arrow),
      a ∈ GravitySim.sceneArrows showForceArrows phys →
      b ∈ GravitySim.sceneArrows showForceArrows phys →
      a.length = b.length) := by
  constructor
  · intro phys a b ha hb
    unfold NewtonsThirdLaw.sceneArrows at ha hb
    by_cases h : phys.state = .pause
    · simp only [h, if_pos, List.mem_cons, List.mem_singleton] at ha hb
      rcases ha with ha | ha <;> rcases hb with hb | hb <;> simp_all
    · simp [h] at ha
  · intro showForceArrows phys a b ha hb
    unfold GravitySim.sceneArrows at ha hb
    cases showForceArrows with
    | false => simp at ha
    | true =>
      simp at ha hb
      rcases ha with rfl | rfl <;> rcases hb with rfl | rfl <;> rfl

/-- Witness for C1: the two arrows of a concrete hammer pause state have
equal lengths. -/
theorem force_arrow_symmetry_witness :
    ({ x := 400, y := 405, dir := ⟨0, -1⟩, length := 50 } : NewtonsThirdLaw.Arrow) ∈
      NewtonsThirdLaw.sceneArrows ⟨.pause, 0, 0, 0, 50⟩ ∧
    ({ x := 400, y := 405, dir := ⟨0, 1⟩, length := 50 } : NewtonsThirdLaw.Arrow) ∈
      NewtonsThirdLaw.sceneArrows ⟨.pause, 0, 0, 0, 50⟩ ∧
    ({ x := 400, y := 405, dir := ⟨0, -1⟩, length := 50 } : NewtonsThirdLaw.Arrow).length =
      ({ x := 400, y := 405, dir := ⟨0, 1⟩, length := 50 } : NewtonsThirdLaw.Arrow).length := by
  have h1 : ({ x := 400, y := 405, dir := ⟨0, -1⟩, length := 50 } : NewtonsThirdLaw.Arrow) ∈
      NewtonsThirdLaw.sceneArrows ⟨.pause, 0, 0, 0, 50⟩ := by
    unfold NewtonsThirdLaw.sceneArrows
    simp [NewtonsThirdLaw.NAIL_X, NewtonsThirdLaw.GROUND_Y]
    norm_num
  have h2 : ({ x := 400, y := 405, dir := ⟨0, 1⟩, length := 50 } : NewtonsThirdLaw.Arrow) ∈
      NewtonsThirdLaw.sceneArrows ⟨.pause, 0, 0, 0, 50⟩ := by
    unfold NewtonsThirdLaw.sceneArrows
    simp [NewtonsThirdLaw.NAIL_X, NewtonsThirdLaw.GROUND_Y]
    norm_num
  exact ⟨h1, h2, force_arrow_symmetry.1 _ _ _ h1 h2⟩

section GravityLemmas

open GravitySim

/-- `update` on a `'running'` state. -/
lemma update_mk_running (eM mM : MassKey) (mx my θ dist v F : ℝ)
    (pts : List Point) :
    update eM mM ⟨.running, mx, my, θ, dist, v, F, pts⟩ =
      ⟨.running,
        EARTH_X + dist * Real.cos
          (θ + calculateOrbitalVelocity (MASS_MAP eM) dist * 0.1 / dist),
        EARTH_Y + dist * Real.sin
          (θ + calculateOrbitalVelocity (MASS_MAP eM) dist * 0.1 / dist),
        θ + calculateOrbitalVelocity (MASS_MAP eM) dist * 0.1 / dist,
        dist,
        calculateOrbitalVelocity (MASS_MAP eM) dist * 0.1,
        calculateGravitationalForce (MASS_MAP eM) (MASS_MAP mM) dist,
        (if pts.length > 500 then pts.tail else pts) ++
          [⟨EARTH_X + dist * Real.cos
              (θ + calculateOrbitalVelocity (MASS_MAP eM) dist * 0.1 / dist),
            EARTH_Y + dist * Real.sin
              (θ + calculateOrbitalVelocity (MASS_MAP eM) dist * 0.1 / dist)⟩]⟩ := rfl

/-- One step of the trail bookkeeping: evict-then-append applied to the
last `min n 501` of the first `n` positions yields the last `min (n+1) 501`
of the first `n+1` positions. -/
lemma path_step (P : ℕ → Point) (n : ℕ) :
    (if (((List.range' 1 n).map P).drop (n - 501)).length > 500
      then (((List.range' 1 n).map P).drop (n - 501)).tail
      else ((List.range' 1 n).map P).drop (n - 501)) ++ [P (n + 1)] =
    ((List.range' 1 (n + 1)).map P).drop ((n + 1) - 501) := by
  have hconcat : List.range' 1 (n + 1) = List.range' 1 n ++ [1 + n] :=
    List.range'_1_concat 1 n
  have hmaplen : ((List.range' 1 n).map P).length = n := by simp
  by_cases h : 500 < n
  · have hlen : (((List.range' 1 n).map P).drop (n - 501)).length = 501 := by
      simp only [List.length_drop, hmaplen]
      omega
    rw [if_pos (by rw [hlen]; norm_num), List.tail_drop]
    have h1 : n - 501 + 1 = n - 500 := by omega
    have h2 : (n + 1) - 501 = n - 500 := by omega
    rw [h1, h2, hconcat, List.map_append,
      List.drop_append_of_le_length (by rw [hmaplen]; omega)]
    simp [Nat.add_comm]
  · have h1 : n - 501 = 0 := by omega
    have h2 : (n + 1) - 501 = 0 := by omega
    rw [h1, h2, List.drop_zero, List.drop_zero,
      if_neg (by rw [hmaplen]; omega), hconcat, List.map_append]
    simp [Nat.add_comm]

/-- Closed form of `n` running frames from `handlePlay` of the initial
state: fixed distance, linearly accumulating angle, position on the
circle, and the trail holding the most recent `min n 501` positions. -/
lemma gravity_run_iter (eM mM : MassKey) (n : ℕ) :
    (update eM mM)^[n] (handlePlay initialGravityState) =
      ⟨.running,
        (posAt eM n).x,
        (posAt eM n).y,
        n * delta eM,
        INITIAL_DISTANCE,
        (if n = 0 then 0
          else calculateOrbitalVelocity (MASS_MAP eM) INITIAL_DISTANCE * 0.1),
        (if n = 0 then 0
          else calculateGravitationalForce (MASS_MAP eM) (MASS_MAP mM) INITIAL_DISTANCE),
        ((List.range' 1 n).map (posAt eM)).drop (n - 501)⟩ := by
  induction n with
  | zero =>
    simp only [Function.iterate_zero, id_eq]
    have h0 : handlePlay initialGravityState =
        ⟨.running, EARTH_X + INITIAL_DISTANCE, EARTH_Y, 0,
          INITIAL_DISTANCE, 0, 0, []⟩ := rfl
    rw [h0]
    refine AnimationState.ext rfl ?_ ?_ ?_ rfl ?_ ?_ ?_
    · show EARTH_X + INITIAL_DISTANCE = (posAt eM 0).x
      simp [posAt]
    · show EARTH_Y = (posAt eM 0).y
      simp [posAt]
    · show (0 : ℝ) = (0 : ℕ) * delta eM
      simp
    · simp
    · simp
    · simp
  | succ n ih =>
    rw [Function.iterate_succ_apply', ih, update_mk_running]
    have hδ : calculateOrbitalVelocity (MASS_MAP eM) INITIAL_DISTANCE * 0.1 /
        INITIAL_DISTANCE = delta eM := rfl
    have hang : (n : ℝ) * delta eM + delta eM = ((n + 1 : ℕ) : ℝ) * delta eM := by
      push_cast
      ring
    rw [hδ, hang]
    refine AnimationState.ext rfl ?_ ?_ rfl rfl ?_ ?_ ?_
    · rfl
    · rfl
    · simp
    · simp
    · exact path_step (posAt eM) n

end GravityLemmas

section GravityTheorems

open GravitySim

/-- C3 counterexample: after 501 running frames from the initial empty
trail (N = 501 > cap = 500, the literal in the code's guard
`pathPoints.length > 500`), the trail holds 501 points, not 500 — the
steady-state length is one more than the guard's cap. -/
theorem path_trail_cap_counterexample :
    ((update .earth .half)^[501]
      (handlePlay initialGravityState)).pathPoints.length ≠ 500 := by
  rw [gravity_run_iter]
  simp

/-- C3 amended: for every `n ≥ 501`, the trail after `n` running frames
has length exactly 501 and holds exactly the most recent 501 moon
positions (frames `n-500 .. n`) in chronological, oldest-first order. -/
theorem path_trail_amended (eM mM : MassKey) (n : ℕ) (hn : 501 ≤ n) :
    ((update eM mM)^[n] (handlePlay initialGravityState)).pathPoints.length = 501 ∧
    ((update eM mM)^[n] (handlePlay initialGravityState)).pathPoints =
      (List.range' (n - 500) 501).map (fun k =>
        { x := ((update eM mM)^[k] (handlePlay initialGravityState)).moonX,
          y := ((update eM mM)^[k] (handlePlay initialGravityState)).moonY }) := by
  constructor
  · rw [gravity_run_iter]
    simp only [List.length_drop, List.length_map, List.length_range']
    omega
  · rw [gravity_run_iter]
    have hsplit : List.range' 1 (n - 501) ++ List.range' (1 + (n - 501)) 501 =
        List.range' 1 n := by
      rw [List.range'_append_1]
      congr 1
      omega
    show (((List.range' 1 n).map (posAt eM)).drop (n - 501)) = _
    rw [← hsplit, List.map_append, List.drop_left' (by simp)]
    have hidx : 1 + (n - 501) = n - 500 := by omega
    rw [hidx]
    refine List.map_congr_left ?_
    intro k hk
    rw [gravity_run_iter eM mM k]

/-- Witness for C3's amended claim at `n = 501`. -/
theorem path_trail_amended_witness :
    501 ≤ 501 ∧
    ((update .earth .earth)^[501]
      (handlePlay initialGravityState)).pathPoints.length = 501 :=
  ⟨by norm_num, (path_trail_amended .earth .earth 501 (by norm_num)).1⟩

end GravityTheorems

end PhysicsSim
